import Mathlib

/-!
Verification of `worker/scripts/get_cvm_info.py`: a lookup utility that reads
a JSON payload from standard input, scans for the first non-terminated item
whose `name` (or hosted `name`) matches a target, and prints a three-field
summary, exiting 1 on any failure.

The embedding models post-parse Python values (`PyVal`), with dictionary
attribute access returning `Except Unit` so that Python `AttributeError`
on non-dict values is modelled as an error that the outer handler swallows.
-/

namespace CvmInfo

/-- A Python value as produced by `json.loads`: `None`, booleans, integers,
strings, lists and dicts (association lists with unique keys). -/
inductive PyVal where
  | none : PyVal
  | bool : Bool → PyVal
  | int : Int → PyVal
  | str : String → PyVal
  | list : List PyVal → PyVal
  | dict : List (String × PyVal) → PyVal
deriving Repr

mutual

/-- Decidable equality on `PyVal`, by structural recursion. -/
def PyVal.decEq : (a b : PyVal) → Decidable (a = b)
  | .none, .none => .isTrue rfl
  | .bool a, .bool b =>
      if h : a = b then .isTrue (by rw [h])
      else .isFalse (fun hh => h (PyVal.bool.inj hh))
  | .int a, .int b =>
      if h : a = b then .isTrue (by rw [h])
      else .isFalse (fun hh => h (PyVal.int.inj hh))
  | .str a, .str b =>
      if h : a = b then .isTrue (by rw [h])
      else .isFalse (fun hh => h (PyVal.str.inj hh))
  | .list xs, .list ys =>
      match PyVal.decEqList xs ys with
      | .isTrue h => .isTrue (by rw [h])
      | .isFalse h => .isFalse (fun hh => h (PyVal.list.inj hh))
  | .dict fs, .dict gs =>
      match PyVal.decEqFields fs gs with
      | .isTrue h => .isTrue (by rw [h])
      | .isFalse h => .isFalse (fun hh => h (PyVal.dict.inj hh))
  | .none, .bool _ | .none, .int _ | .none, .str _ | .none, .list _ | .none, .dict _
  | .bool _, .none | .bool _, .int _ | .bool _, .str _ | .bool _, .list _ | .bool _, .dict _
  | .int _, .none | .int _, .bool _ | .int _, .str _ | .int _, .list _ | .int _, .dict _
  | .str _, .none | .str _, .bool _ | .str _, .int _ | .str _, .list _ | .str _, .dict _
  | .list _, .none | .list _, .bool _ | .list _, .int _ | .list _, .str _ | .list _, .dict _
  | .dict _, .none | .dict _, .bool _ | .dict _, .int _ | .dict _, .str _ | .dict _, .list _ =>
      .isFalse (fun h => PyVal.noConfusion h)

/-- Decidable equality on lists of `PyVal`. -/
def PyVal.decEqList : (a b : List PyVal) → Decidable (a = b)
  | [], [] => .isTrue rfl
  | [], _ :: _ => .isFalse (fun h => List.noConfusion h)
  | _ :: _, [] => .isFalse (fun h => List.noConfusion h)
  | x :: xs, y :: ys =>
      match PyVal.decEq x y with
      | .isFalse h => .isFalse (fun hh => h (List.cons.inj hh).1)
      | .isTrue h1 =>
          match PyVal.decEqList xs ys with
          | .isTrue h2 => .isTrue (by rw [h1, h2])
          | .isFalse h2 => .isFalse (fun hh => h2 (List.cons.inj hh).2)

/-- Decidable equality on association lists of `PyVal`. -/
def PyVal.decEqFields : (a b : List (String × PyVal)) → Decidable (a = b)
  | [], [] => .isTrue rfl
  | [], _ :: _ => .isFalse (fun h => List.noConfusion h)
  | _ :: _, [] => .isFalse (fun h => List.noConfusion h)
  | (k1, v1) :: fs, (k2, v2) :: gs =>
      if hk : k1 = k2 then
        match PyVal.decEq v1 v2 with
        | .isFalse hv =>
            .isFalse (fun hh => hv (congrArg Prod.snd (List.cons.inj hh).1))
        | .isTrue hv =>
            match PyVal.decEqFields fs gs with
            | .isTrue ht => .isTrue (by rw [hk, hv, ht])
            | .isFalse ht => .isFalse (fun hh => ht (List.cons.inj hh).2)
      else
        .isFalse (fun hh => hk (congrArg Prod.fst (List.cons.inj hh).1))

end

instance : DecidableEq PyVal := PyVal.decEq

deriving instance DecidableEq for Except

/-- Python truthiness: `None`, `False`, `0`, and empty strings, lists and
dicts are falsy; everything else is truthy. -/
def PyVal.truthy : PyVal → Bool
  | .none => false
  | .bool b => b
  | .int n => n != 0
  | .str s => !s.isEmpty
  | .list xs => !xs.isEmpty
  | .dict fs => !fs.isEmpty

/-- Python `x or y`: returns `x` if it is truthy, else `y`. -/
def pyOr (x y : PyVal) : PyVal := if x.truthy then x else y

/-- Models the Python method call `v.get(k, default)`: succeeds with the
stored value (or the default when the key is absent) when `v` is a dict,
and raises (`AttributeError`) when `v` is any other value. -/
def pyGetD (v : PyVal) (k : String) (dflt : PyVal) : Except Unit PyVal :=
  match v with
  | .dict fs => .ok ((fs.lookup k).getD dflt)
  | _ => .error ()

/-- Models `v.get(k)` (default `None`). -/
def pyGet (v : PyVal) (k : String) : Except Unit PyVal :=
  pyGetD v k PyVal.none

/-- Field access on a dict's association list, defaulting to `None`;
used to state theorems about items already known to be dicts. -/
def dGet (fs : List (String × PyVal)) (k : String) : PyVal :=
  ((fs.lookup k).getD PyVal.none)

/-- The scan loop of `get_cvm_info` (source lines 17-31): visit items in
order; read `status`, `hosted` (default empty dict) and `hosted.status`
(these raise on non-dict values); skip terminated items; stop at the first
item whose `name` or hosted `name` equals the target. -/
def scanItems (appName : String) : List PyVal → Except Unit (Option PyVal)
  | [] => .ok Option.none
  | item :: rest =>
      match pyGet item "status" with
      | .error e => .error e
      | .ok status =>
        match pyGetD item "hosted" (.dict []) with
        | .error e => .error e
        | .ok hosted =>
          match pyGet hosted "status" with
          | .error e => .error e
          | .ok hStatus =>
            if status = .str "terminated" ∨ hStatus = .str "terminated" then
              scanItems appName rest
            else
              match pyGet item "name" with
              | .error e => .error e
              | .ok n =>
                if n = .str appName then .ok (some item)
                else
                  match pyGet hosted "name" with
                  | .error e => .error e
                  | .ok hn =>
                    if hn = .str appName then .ok (some item)
                    else scanItems appName rest

/-- Building the Result from the matched item (source lines 33-40):
three fields produced by Python `or`-chains over `.get` lookups. -/
def buildResult (target : PyVal) : Except Unit PyVal :=
  match pyGetD target "hosted" (.dict []) with
  | .error e => .error e
  | .ok hosted =>
      match pyGet hosted "id", pyGet target "id", pyGet target "vm_uuid" with
      | .error e, _, _ | _, .error e, _ | _, _, .error e => .error e
      | .ok hid, .ok tid, .ok tvm =>
          match pyGet hosted "app_id", pyGet target "app_id" with
          | .error e, _ | _, .error e => .error e
          | .ok haid, .ok taid =>
              match pyGet target "dapp_dashboard_url", pyGet hosted "app_url" with
              | .error e, _ | _, .error e => .error e
              | .ok tdash, .ok hurl =>
                  .ok (.dict [("id", pyOr (pyOr hid tid) tvm),
                              ("app_id", pyOr haid taid),
                              ("dashboard_url", pyOr tdash hurl)])

/-- The item-sequence extraction (source lines 13-15): a dict uses its
`"items"` value when that value is a list, a list is used directly, and
every other shape yields the empty sequence. -/
def extractItems (data : PyVal) : List PyVal :=
  match data with
  | .dict fs =>
      match fs.lookup "items" with
      | some (.list xs) => xs
      | _ => []
  | .list xs => xs
  | _ => []

/-- The body of `get_cvm_info` after JSON parsing succeeded: extract the
item list, scan, and build the Result when the match is truthy. Errors
propagate to the caller (the `except` handler). -/
def getCvmInfoCore (appName : String) (data : PyVal) : Except Unit (Option PyVal) :=
  match scanItems appName (extractItems data) with
  | .error e => .error e
  | .ok (some target) =>
      if target.truthy then
        match buildResult target with
        | .error e => .error e
        | .ok r => .ok (some r)
      else .ok Option.none
  | .ok Option.none => .ok Option.none

/-- Outcome of `json.loads` on the input text, modelled abstractly:
either a parse failure (an exception) or a parsed value. -/
inductive ParseResult where
  | failure : ParseResult
  | success : PyVal → ParseResult
deriving Repr

/-- The function `get_cvm_info` (source lines 5-43): returns `None` for empty input,
and wraps the body in a catch-all that turns every exception (parse
failure or any error during processing) into `None`. -/
def get_cvm_info (appName : String) (input : String) (parsed : ParseResult) : Option PyVal :=
  if input.isEmpty then Option.none
  else
    match parsed with
    | .failure => Option.none
    | .success data =>
        match getCvmInfoCore appName data with
        | .error _ => Option.none
        | .ok r => r

mutual
/-- Models `json.dumps` with default separators on the values this script
produces (no characters needing escapes in the claims' inputs). -/
def PyVal.dumps : PyVal → String
  | .none => "null"
  | .bool true => "true"
  | .bool false => "false"
  | .int n => toString n
  | .str s => "\"" ++ s ++ "\""
  | .list xs => "[" ++ PyVal.dumpsList xs ++ "]"
  | .dict fs => "\x7b" ++ PyVal.dumpsFields fs ++ "\x7d"

/-- Serialize a list's elements, comma-separated. -/
def PyVal.dumpsList : List PyVal → String
  | [] => ""
  | [x] => PyVal.dumps x
  | x :: xs => PyVal.dumps x ++ ", " ++ PyVal.dumpsList xs

/-- Serialize a dict's fields, comma-separated. -/
def PyVal.dumpsFields : List (String × PyVal) → String
  | [] => ""
  | [(k, v)] => "\"" ++ k ++ "\": " ++ PyVal.dumps v
  | (k, v) :: fs => "\"" ++ k ++ "\": " ++ PyVal.dumps v ++ ", " ++ PyVal.dumpsFields fs
end

/-- Observable outcome of one process run: exit code, what was printed to
standard output (if anything), and what was printed to standard error. -/
structure ProcResult where
  exitCode : Nat
  stdout : Option String
  stderr : Option String
deriving Repr, DecidableEq

/-- The `__main__` block (source lines 46-55): with fewer than two argv
entries, print usage to stderr and exit 1 without touching stdin; else run
the lookup, print the JSON result and exit 0 when it is truthy, exit 1
otherwise. -/
def mainProc (argv : List String) (input : String) (parsed : ParseResult) : ProcResult :=
  match argv with
  | _ :: appName :: _ =>
      match get_cvm_info appName input parsed with
      | some info =>
          if info.truthy then ⟨0, some (PyVal.dumps info), Option.none⟩
          else ⟨1, Option.none, Option.none⟩
      | Option.none => ⟨1, Option.none, Option.none⟩
  | _ => ⟨1, Option.none, some "Usage: get_cvm_info.py <app_name>"⟩

/-- First-truthy-wins coalescing over a candidate list, as a Python
`or`-chain behaves: return the first truthy candidate, or the last
candidate when none is truthy (`None` for the empty list). -/
def coalesceTruthy : List PyVal → PyVal
  | [] => PyVal.none
  | [x] => x
  | x :: y :: xs => if x.truthy then x else coalesceTruthy (y :: xs)

/-- An item is excluded by the scan's terminated check: its `status` field
is the string "terminated", or its `hosted` field is a dict whose `status`
field is the string "terminated". -/
def isTerminatedItem : PyVal → Bool
  | .dict fs =>
      if dGet fs "status" = PyVal.str "terminated" then true
      else
        match fs.lookup "hosted" with
        | some (.dict hfs) =>
            if dGet hfs "status" = PyVal.str "terminated" then true else false
        | _ => false
  | _ => false

/-- The Result produced for a matched item carrying none of the projected
fields: all three keys present, all `None`. -/
def allNullResult : PyVal :=
  .dict [("id", PyVal.none), ("app_id", PyVal.none), ("dashboard_url", PyVal.none)]

/-! ## Helper lemmas -/

theorem pyGetD_dict (fs : List (String × PyVal)) (k : String) (d : PyVal) :
    pyGetD (.dict fs) k d = .ok ((fs.lookup k).getD d) := rfl

theorem pyGet_dict (fs : List (String × PyVal)) (k : String) :
    pyGet (.dict fs) k = .ok (dGet fs k) := rfl

theorem pyGet_nondict (v : PyVal) (k : String) (h : ∀ fs, v ≠ PyVal.dict fs) :
    pyGet v k = .error () := by
  cases v <;> first | rfl | exact absurd rfl (h _)

/-- A non-dict element makes the scan raise as soon as it is visited. -/
theorem scanItems_cons_nondict (a : String) (bad : PyVal) (rest : List PyVal)
    (hnd : ∀ fs, bad ≠ PyVal.dict fs) :
    scanItems a (bad :: rest) = .error () := by
  cases bad <;> first | exact absurd rfl (hnd _) | simp [scanItems, pyGet, pyGetD]

/-- A dict item with a present non-dict `hosted` makes the scan raise when
`hosted.get("status")` is evaluated. -/
theorem scanItems_cons_hosted_nondict (a : String) (fs : List (String × PyVal))
    (v : PyVal) (rest : List PyVal)
    (hv : fs.lookup "hosted" = some v) (hnd : ∀ gs, v ≠ PyVal.dict gs) :
    scanItems a (.dict fs :: rest) = .error () := by
  cases v <;> first
    | exact absurd rfl (hnd _)
    | simp [scanItems, pyGet, pyGetD, hv]

/-- One scan step on a dict item whose `hosted` field is a dict (or absent,
in which case `hfs = []` stands for the default empty dict): the terminated
check first, then the two name checks, else recurse. -/
theorem scanItems_cons_step (a : String) (fs hfs : List (String × PyVal)) (rest : List PyVal)
    (hh : fs.lookup "hosted" = some (PyVal.dict hfs) ∨
          (fs.lookup "hosted" = Option.none ∧ hfs = [])) :
    scanItems a (.dict fs :: rest) =
      if dGet fs "status" = PyVal.str "terminated" ∨ dGet hfs "status" = PyVal.str "terminated" then
        scanItems a rest
      else if dGet fs "name" = PyVal.str a then .ok (some (.dict fs))
      else if dGet hfs "name" = PyVal.str a then .ok (some (.dict fs))
      else scanItems a rest := by
  rcases hh with h | ⟨h, rfl⟩ <;>
    simp [scanItems, pyGet, pyGetD, dGet, h]

/-- Scanning a concatenation whose first part finds no match and raises no
error continues into the second part. -/
theorem scanItems_append_none (a : String) (xs ys : List PyVal)
    (h : scanItems a xs = .ok Option.none) :
    scanItems a (xs ++ ys) = scanItems a ys := by
  induction xs with
  | nil => rw [List.nil_append]
  | cons x xs ih =>
    rw [List.cons_append]
    cases x
    case dict fs =>
      cases hl : List.lookup "hosted" fs with
      | none =>
        rw [scanItems_cons_step a fs [] xs (Or.inr ⟨hl, rfl⟩)] at h
        rw [scanItems_cons_step a fs [] (xs ++ ys) (Or.inr ⟨hl, rfl⟩)]
        split_ifs at h ⊢ with h1 h2 h3
        · exact ih h
        · simp at h
        · simp at h
        · exact ih h
      | some v =>
        cases v
        case dict hfs =>
          rw [scanItems_cons_step a fs hfs xs (Or.inl hl)] at h
          rw [scanItems_cons_step a fs hfs (xs ++ ys) (Or.inl hl)]
          split_ifs at h ⊢ with h1 h2 h3
          · exact ih h
          · simp at h
          · simp at h
          · exact ih h
        all_goals
          rw [scanItems_cons_hosted_nondict a fs _ xs hl (fun _ hh => PyVal.noConfusion hh)] at h
          simp at h
    all_goals
      rw [scanItems_cons_nondict a _ xs (fun _ hh => PyVal.noConfusion hh)] at h
      simp at h

/-- Any matched item is a nonempty dict, is not excluded by the terminated
check, and is truthy. -/
theorem scanItems_match_props (a : String) (items : List PyVal) (t : PyVal)
    (h : scanItems a items = .ok (some t)) :
    (∃ fs, t = PyVal.dict fs ∧ fs ≠ []) ∧ isTerminatedItem t = false ∧ t.truthy = true := by
  induction items with
  | nil => simp [scanItems] at h
  | cons x xs ih =>
    cases x
    case dict fs =>
      cases hl : List.lookup "hosted" fs with
      | none =>
        rw [scanItems_cons_step a fs [] xs (Or.inr ⟨hl, rfl⟩)] at h
        split_ifs at h with h1 h2 h3
        · exact ih h
        · have ht : t = PyVal.dict fs := by
            simpa using h.symm
          subst ht
          have hne : fs ≠ [] := by
            intro hnil; subst hnil; simp [dGet] at h2
          refine ⟨⟨fs, rfl, hne⟩, ?_, ?_⟩
          · simp only [isTerminatedItem, hl]
            rw [if_neg (fun hc => h1 (Or.inl hc))]
          · simpa [PyVal.truthy] using hne
        · simp [dGet] at h3
        · exact ih h
      | some v =>
        cases v
        case dict hfs =>
          rw [scanItems_cons_step a fs hfs xs (Or.inl hl)] at h
          split_ifs at h with h1 h2 h3
          · exact ih h
          · have ht : t = PyVal.dict fs := by simpa using h.symm
            subst ht
            have hne : fs ≠ [] := by
              intro hnil; subst hnil; simp at hl
            refine ⟨⟨fs, rfl, hne⟩, ?_, ?_⟩
            · simp only [isTerminatedItem, hl]
              rw [if_neg (fun hc => h1 (Or.inl hc)), if_neg (fun hc => h1 (Or.inr hc))]
            · simpa [PyVal.truthy] using hne
          · have ht : t = PyVal.dict fs := by simpa using h.symm
            subst ht
            have hne : fs ≠ [] := by
              intro hnil; subst hnil; simp at hl
            refine ⟨⟨fs, rfl, hne⟩, ?_, ?_⟩
            · simp only [isTerminatedItem, hl]
              rw [if_neg (fun hc => h1 (Or.inl hc)), if_neg (fun hc => h1 (Or.inr hc))]
            · simpa [PyVal.truthy] using hne
          · exact ih h
        all_goals
          rw [scanItems_cons_hosted_nondict a fs _ xs hl (fun _ hh => PyVal.noConfusion hh)] at h
          simp at h
    all_goals
      rw [scanItems_cons_nondict a _ xs (fun _ hh => PyVal.noConfusion hh)] at h
      simp at h

/-- The Result for a dict item whose `hosted` field is a dict (or absent,
with `hfs = []` standing for the default): three `or`-chains over the
field lookups. -/
theorem buildResult_step (fs hfs : List (String × PyVal))
    (hh : fs.lookup "hosted" = some (PyVal.dict hfs) ∨
          (fs.lookup "hosted" = Option.none ∧ hfs = [])) :
    buildResult (.dict fs) =
      .ok (.dict [("id", pyOr (pyOr (dGet hfs "id") (dGet fs "id")) (dGet fs "vm_uuid")),
                  ("app_id", pyOr (dGet hfs "app_id") (dGet fs "app_id")),
                  ("dashboard_url", pyOr (dGet fs "dapp_dashboard_url") (dGet hfs "app_url"))]) := by
  rcases hh with h | ⟨h, rfl⟩ <;> simp [buildResult, pyGet, pyGetD, dGet, h]

/-- A successfully built Result is a dict with exactly the three keys
`id`, `app_id`, `dashboard_url`, and is in particular truthy. -/
theorem buildResult_ok_shape (t r : PyVal) (h : buildResult t = .ok r) :
    (∃ x y z, r = PyVal.dict [("id", x), ("app_id", y), ("dashboard_url", z)]) ∧
      r.truthy = true := by
  cases t
  case dict fs =>
    cases hl : List.lookup "hosted" fs with
    | none =>
      rw [buildResult_step fs [] (Or.inr ⟨hl, rfl⟩)] at h
      obtain rfl : _ = r := by simpa using h
      exact ⟨⟨_, _, _, rfl⟩, rfl⟩
    | some v =>
      cases v
      case dict hfs =>
        rw [buildResult_step fs hfs (Or.inl hl)] at h
        obtain rfl : _ = r := by simpa using h
        exact ⟨⟨_, _, _, rfl⟩, rfl⟩
      all_goals simp [buildResult, pyGet, pyGetD, hl] at h
  all_goals simp [buildResult, pyGet, pyGetD] at h

/-- A successful core run decomposes into a successful scan followed by a
successful Result build on the matched item. -/
theorem getCvmInfoCore_ok_some (a : String) (data : PyVal) (r : PyVal)
    (h : getCvmInfoCore a data = .ok (some r)) :
    ∃ t, scanItems a (extractItems data) = .ok (some t) ∧ buildResult t = .ok r := by
  cases hs : scanItems a (extractItems data) with
  | error e => simp [getCvmInfoCore, hs] at h
  | ok o =>
    cases o with
    | none => simp [getCvmInfoCore, hs] at h
    | some target =>
      by_cases ht : target.truthy = true
      · cases hb : buildResult target with
        | error e => simp [getCvmInfoCore, hs, ht, hb] at h
        | ok rr =>
          refine ⟨target, rfl, ?_⟩
          simp only [getCvmInfoCore, hs, ht, if_true, hb, Except.ok.injEq,
            Option.some.injEq] at h
          rw [hb, h]
      · simp [getCvmInfoCore, hs, ht] at h

/-- A successful lookup presupposes a non-empty input, a successful parse,
and a successful core run returning exactly the same Result. -/
theorem get_cvm_info_some (a i : String) (p : ParseResult) (r : PyVal)
    (h : get_cvm_info a i p = some r) :
    ∃ data, p = .success data ∧ getCvmInfoCore a data = .ok (some r) := by
  cases p with
  | failure =>
    cases hi : i.isEmpty <;> simp [get_cvm_info, hi] at h
  | success data =>
    refine ⟨data, rfl, ?_⟩
    cases hi : i.isEmpty with
    | true => simp [get_cvm_info, hi] at h
    | false =>
      cases hc : getCvmInfoCore a data with
      | error e => simp [get_cvm_info, hi, hc] at h
      | ok o =>
        simp only [get_cvm_info, hi, Bool.false_eq_true, if_false, hc] at h
        rw [h]

/-- Any value a successful lookup returns is truthy. -/
theorem get_cvm_info_truthy (a i : String) (p : ParseResult) (r : PyVal)
    (h : get_cvm_info a i p = some r) : r.truthy = true := by
  obtain ⟨data, -, hc⟩ := get_cvm_info_some a i p r h
  obtain ⟨t, -, hb⟩ := getCvmInfoCore_ok_some a data r hc
  exact (buildResult_ok_shape t r hb).2

/-- A non-empty string has `isEmpty = false`. -/
theorem isEmpty_false_of_ne (s : String) (h : s ≠ "") : s.isEmpty = false := by
  cases he : s.isEmpty
  · rfl
  · exact absurd ((String.isEmpty_iff s).mp he) h

/-- A two-operand Python `or` is first-truthy-wins coalescing. -/
theorem pyOr_coalesce2 (x y : PyVal) : pyOr x y = coalesceTruthy [x, y] := by
  simp [pyOr, coalesceTruthy]

/-- A three-operand Python `or`-chain is first-truthy-wins coalescing. -/
theorem pyOr_coalesce3 (x y z : PyVal) :
    pyOr (pyOr x y) z = coalesceTruthy [x, y, z] := by
  by_cases hx : x.truthy = true <;> by_cases hy : y.truthy = true <;>
    simp [pyOr, coalesceTruthy, hx, hy]

/-! ## Claims -/

/-- C1 counterexample: the coalescing is not first-non-NULL-wins. In the
payload `[{"name":"a","id":"123","hosted":{"id":""}}]` with target `"a"`,
`hosted.id` is the non-null empty string, so under the claim the Result's
`id` would be `""`; the code instead lets the empty string fall through
and returns `id = "123"`. -/
theorem C1_counterexample :
    get_cvm_info "a" "payload"
        (ParseResult.success (PyVal.list [PyVal.dict
          [("name", PyVal.str "a"), ("id", PyVal.str "123"),
           ("hosted", PyVal.dict [("id", PyVal.str "")])]])) =
      some (PyVal.dict [("id", PyVal.str "123"), ("app_id", PyVal.none),
        ("dashboard_url", PyVal.none)]) ∧
    PyVal.str "123" ≠ PyVal.str "" := by
  exact ⟨by decide, by decide⟩

/-- C1 (amended): for every matched item, the Result is built by
first-TRUTHY-wins coalescing in the claimed candidate order per field: a
candidate that is null or an empty (falsy) value falls through to the
later candidates, and the last candidate's value is used when none is
truthy. -/
theorem C1_amended_first_truthy (appName input : String) (data : PyVal)
    (fs hfs : List (String × PyVal))
    (hmatch : scanItems appName (extractItems data) = .ok (some (PyVal.dict fs)))
    (hh : fs.lookup "hosted" = some (PyVal.dict hfs) ∨
          (fs.lookup "hosted" = Option.none ∧ hfs = []))
    (hin : input ≠ "") :
    get_cvm_info appName input (ParseResult.success data) =
      some (PyVal.dict
        [("id", coalesceTruthy [dGet hfs "id", dGet fs "id", dGet fs "vm_uuid"]),
         ("app_id", coalesceTruthy [dGet hfs "app_id", dGet fs "app_id"]),
         ("dashboard_url", coalesceTruthy [dGet fs "dapp_dashboard_url", dGet hfs "app_url"])]) := by
  have htr : (PyVal.dict fs).truthy = true :=
    (scanItems_match_props appName (extractItems data) _ hmatch).2.2
  have hb := buildResult_step fs hfs hh
  rw [pyOr_coalesce3, pyOr_coalesce2, pyOr_coalesce2] at hb
  simp [get_cvm_info, isEmpty_false_of_ne input hin, getCvmInfoCore, hmatch, htr, hb]

/-- C1 amended witness: at the counterexample payload, the amended claim
produces `id = "123"` (the empty string falls through). -/
theorem C1_amended_witness :
    get_cvm_info "a" "payload"
        (ParseResult.success (PyVal.list [PyVal.dict
          [("name", PyVal.str "a"), ("id", PyVal.str "123"),
           ("hosted", PyVal.dict [("id", PyVal.str "")])]])) =
      some (PyVal.dict [("id", PyVal.str "123"), ("app_id", PyVal.none),
        ("dashboard_url", PyVal.none)]) :=
  C1_amended_first_truthy "a" "payload" _
    [("name", PyVal.str "a"), ("id", PyVal.str "123"),
     ("hosted", PyVal.dict [("id", PyVal.str "")])]
    [("id", PyVal.str "")]
    (by decide) (Or.inl (by decide)) (by decide)

/-- C2 counterexample: in the payload `[{"name":"a","hosted":"x"}]` with
target `"a"`, the item's `hosted` field is present but is a string, and the
item's own `name` equals the target; under the claim the item would still
match, but the code returns absence for the whole lookup. -/
theorem C2_counterexample :
    get_cvm_info "a" "payload"
        (ParseResult.success (PyVal.list
          [PyVal.dict [("name", PyVal.str "a"), ("hosted", PyVal.str "x")]])) =
      Option.none ∧
    dGet [("name", PyVal.str "a"), ("hosted", PyVal.str "x")] "name" = PyVal.str "a" := by
  exact ⟨by decide, by decide⟩

/-- C2 (amended): whenever an item whose `hosted` field is present but is
not a mapping is reached by the scan — at any position, after every
earlier item completed without matching — the attribute access on
`hosted` raises, the catch-all swallows the error, and the WHOLE lookup
signals absence: the item is not considered via its own `name` field, and
neither is anything after it. -/
theorem C2_amended_nondict_hosted_aborts (appName input : String)
    (fs : List (String × PyVal)) (v : PyVal) (pre post : List PyVal) (data : PyVal)
    (hitems : extractItems data = pre ++ PyVal.dict fs :: post)
    (hpre : scanItems appName pre = .ok Option.none)
    (hv : fs.lookup "hosted" = some v)
    (hnd : ∀ hfs, v ≠ PyVal.dict hfs) :
    scanItems appName (extractItems data) = .error () ∧
    get_cvm_info appName input (ParseResult.success data) = Option.none := by
  have hscan : scanItems appName (extractItems data) = .error () := by
    rw [hitems, scanItems_append_none appName pre (PyVal.dict fs :: post) hpre]
    exact scanItems_cons_hosted_nondict appName fs v post hv hnd
  refine ⟨hscan, ?_⟩
  cases hi : input.isEmpty <;> simp [get_cvm_info, hi, getCvmInfoCore, hscan]

/-- C2 amended witness: a non-mapping `hosted` on the second item (reached
after a clean non-matching first item) yields absence for the whole
lookup, even though that item's own name matches the target and a later
item would match too. -/
theorem C2_amended_witness :
    get_cvm_info "a" "payload"
        (ParseResult.success (PyVal.list
          [PyVal.dict [("name", PyVal.str "b")],
           PyVal.dict [("name", PyVal.str "a"), ("hosted", PyVal.str "x")],
           PyVal.dict [("name", PyVal.str "a"), ("id", PyVal.str "id2")]])) =
      Option.none :=
  (C2_amended_nondict_hosted_aborts "a" "payload"
    [("name", PyVal.str "a"), ("hosted", PyVal.str "x")] (PyVal.str "x")
    [PyVal.dict [("name", PyVal.str "b")]]
    [PyVal.dict [("name", PyVal.str "a"), ("id", PyVal.str "id2")]] _
    (by decide) (by decide) (by decide) (fun _ hh => PyVal.noConfusion hh)).2

/-- C3: `get_cvm_info` never raises in the embedding and signals absence
(returns `none`) for empty input, for malformed JSON, for any internal
error during processing, and for a completed scan with no match; a present
result always comes unchanged from a fully successful run (no partial
result). -/
theorem C3_never_raises_absence (appName input : String) (parsed : ParseResult) :
    (input = "" → get_cvm_info appName input parsed = Option.none) ∧
    (parsed = ParseResult.failure → get_cvm_info appName input parsed = Option.none) ∧
    (∀ data, parsed = ParseResult.success data → getCvmInfoCore appName data = .error () →
      get_cvm_info appName input parsed = Option.none) ∧
    (∀ data, parsed = ParseResult.success data →
      getCvmInfoCore appName data = .ok Option.none →
      get_cvm_info appName input parsed = Option.none) ∧
    (∀ r, get_cvm_info appName input parsed = some r →
      ∃ data, parsed = ParseResult.success data ∧
        getCvmInfoCore appName data = .ok (some r)) := by
  refine ⟨?_, ?_, ?_, ?_, ?_⟩
  · intro h; subst h; rfl
  · intro h; subst h; simp [get_cvm_info]
  · intro data hp hc; subst hp
    cases hi : input.isEmpty <;> simp [get_cvm_info, hi, hc]
  · intro data hp hc; subst hp
    cases hi : input.isEmpty <;> simp [get_cvm_info, hi, hc]
  · intro r h; exact get_cvm_info_some appName input parsed r h

/-- C3 witness: empty input yields absence. -/
theorem C3_witness :
    get_cvm_info "a" "" ParseResult.failure = Option.none :=
  (C3_never_raises_absence "a" "" ParseResult.failure).1 rfl

/-- C4: an item whose `status` is "terminated", or whose hosted dict status
is "terminated", is skipped by the scan — even when its name would match —
and, independently, no scan ever returns a terminated item as the match. -/
theorem C4_terminated_skipped (appName : String) (fs : List (String × PyVal))
    (rest : List PyVal)
    (hhost : fs.lookup "hosted" = Option.none ∨
             ∃ hfs, fs.lookup "hosted" = some (PyVal.dict hfs))
    (hterm : dGet fs "status" = PyVal.str "terminated" ∨
             (∃ hfs, fs.lookup "hosted" = some (PyVal.dict hfs) ∧
               dGet hfs "status" = PyVal.str "terminated")) :
    scanItems appName (PyVal.dict fs :: rest) = scanItems appName rest ∧
    (∀ items t, scanItems appName items = .ok (some t) → isTerminatedItem t = false) := by
  constructor
  · rcases hhost with h | ⟨hfs, h⟩
    · rw [scanItems_cons_step appName fs [] rest (Or.inr ⟨h, rfl⟩)]
      rcases hterm with ht | ⟨hfs', h', ht⟩
      · rw [if_pos (Or.inl ht)]
      · rw [h] at h'; exact absurd h' (by simp)
    · rw [scanItems_cons_step appName fs hfs rest (Or.inl h)]
      rcases hterm with ht | ⟨hfs', h', ht⟩
      · rw [if_pos (Or.inl ht)]
      · rw [h] at h'
        cases PyVal.dict.inj (Option.some.inj h')
        rw [if_pos (Or.inr ht)]
  · intro items t h
    exact (scanItems_match_props appName items t h).2.1

/-- C4 witness: a terminated item whose name equals the target is skipped,
so the scan of the singleton list finds nothing. -/
theorem C4_witness :
    scanItems "a" [PyVal.dict [("name", PyVal.str "a"),
      ("status", PyVal.str "terminated"), ("id", PyVal.str "x")]] = .ok Option.none :=
  ((C4_terminated_skipped "a"
      [("name", PyVal.str "a"), ("status", PyVal.str "terminated"), ("id", PyVal.str "x")]
      [] (Or.inl (by decide)) (Or.inl (by decide))).1).trans (by decide)

/-- C5: the scan stops at the first non-skipped item whose `name` or
hosted `name` equals the target, whatever follows; and the lookup builds
the Result from that first matching item's fields. -/
theorem C5_first_match_wins (appName : String) (fs hfs : List (String × PyVal))
    (rest : List PyVal)
    (hh : fs.lookup "hosted" = some (PyVal.dict hfs) ∨
          (fs.lookup "hosted" = Option.none ∧ hfs = []))
    (hs1 : dGet fs "status" ≠ PyVal.str "terminated")
    (hs2 : dGet hfs "status" ≠ PyVal.str "terminated")
    (hname : dGet fs "name" = PyVal.str appName ∨ dGet hfs "name" = PyVal.str appName) :
    scanItems appName (PyVal.dict fs :: rest) = .ok (some (PyVal.dict fs)) ∧
    (∀ input data, input ≠ "" → extractItems data = PyVal.dict fs :: rest →
      get_cvm_info appName input (ParseResult.success data) =
        some (PyVal.dict
          [("id", pyOr (pyOr (dGet hfs "id") (dGet fs "id")) (dGet fs "vm_uuid")),
           ("app_id", pyOr (dGet hfs "app_id") (dGet fs "app_id")),
           ("dashboard_url", pyOr (dGet fs "dapp_dashboard_url") (dGet hfs "app_url"))])) := by
  have hterm : ¬(dGet fs "status" = PyVal.str "terminated" ∨
      dGet hfs "status" = PyVal.str "terminated") := by
    rintro (h | h)
    · exact hs1 h
    · exact hs2 h
  have hscan : scanItems appName (PyVal.dict fs :: rest) = .ok (some (PyVal.dict fs)) := by
    rw [scanItems_cons_step appName fs hfs rest hh, if_neg hterm]
    rcases hname with h | h
    · rw [if_pos h]
    · by_cases h2 : dGet fs "name" = PyVal.str appName
      · rw [if_pos h2]
      · rw [if_neg h2, if_pos h]
  refine ⟨hscan, ?_⟩
  intro input data hi hx
  have hne : fs ≠ [] := by
    intro hnil; subst hnil
    rcases hh with h | ⟨h, rfl⟩
    · simp at h
    · rcases hname with h' | h' <;> simp [dGet] at h'
  have htr : (PyVal.dict fs).truthy = true := by
    simpa [PyVal.truthy] using hne
  have hb := buildResult_step fs hfs hh
  simp [get_cvm_info, isEmpty_false_of_ne input hi, getCvmInfoCore, hx, hscan, htr, hb]

/-- C5 witness: with two matching items, the Result comes from the first
(its `vm_uuid`, since it has no `hosted` and no `id`), not the second. -/
theorem C5_witness :
    get_cvm_info "a" "payload"
        (ParseResult.success (PyVal.list
          [PyVal.dict [("name", PyVal.str "a"), ("vm_uuid", PyVal.str "uuid1")],
           PyVal.dict [("name", PyVal.str "a"), ("id", PyVal.str "id2")]])) =
      some (PyVal.dict [("id", PyVal.str "uuid1"), ("app_id", PyVal.none),
        ("dashboard_url", PyVal.none)]) :=
  (C5_first_match_wins "a" [("name", PyVal.str "a"), ("vm_uuid", PyVal.str "uuid1")] []
      [PyVal.dict [("name", PyVal.str "a"), ("id", PyVal.str "id2")]]
      (Or.inr ⟨by decide, rfl⟩) (by decide) (by decide) (Or.inl (by decide))).2
    "payload" _ (by decide) (by decide)

/-- C6: a bare list payload and an object payload `{"items": L}` with the
same list yield identical results for every target name. -/
theorem C6_payload_shapes (appName s1 s2 : String) (L : List PyVal)
    (h1 : s1 ≠ "") (h2 : s2 ≠ "") :
    get_cvm_info appName s1 (ParseResult.success (PyVal.list L)) =
      get_cvm_info appName s2
        (ParseResult.success (PyVal.dict [("items", PyVal.list L)])) := by
  have e1 : extractItems (PyVal.list L) = L := rfl
  have e2 : extractItems (PyVal.dict [("items", PyVal.list L)]) = L := by
    simp [extractItems, List.lookup]
  simp [get_cvm_info, isEmpty_false_of_ne s1 h1, isEmpty_false_of_ne s2 h2,
    getCvmInfoCore, e1, e2]

/-- C6 witness: the two payload shapes agree on a concrete list. -/
theorem C6_witness :
    get_cvm_info "a" "p1"
        (ParseResult.success (PyVal.list
          [PyVal.dict [("name", PyVal.str "a"), ("id", PyVal.str "7")]])) =
      get_cvm_info "a" "p2"
        (ParseResult.success (PyVal.dict [("items", PyVal.list
          [PyVal.dict [("name", PyVal.str "a"), ("id", PyVal.str "7")]])])) :=
  C6_payload_shapes "a" "p1" "p2"
    [PyVal.dict [("name", PyVal.str "a"), ("id", PyVal.str "7")]]
    (by decide) (by decide)

/-- C7: with a name argument present, the process prints the Result as a
JSON object to standard output and exits 0 exactly when the lookup finds a
match; on no match or any failure it exits 1 and prints nothing. -/
theorem C7_exit_behavior (a0 appName input : String) (args : List String)
    (parsed : ParseResult) :
    (∀ r, get_cvm_info appName input parsed = some r →
        mainProc (a0 :: appName :: args) input parsed =
          ⟨0, some (PyVal.dumps r), Option.none⟩) ∧
    (get_cvm_info appName input parsed = Option.none →
        mainProc (a0 :: appName :: args) input parsed =
          ⟨1, Option.none, Option.none⟩) := by
  constructor
  · intro r h
    have ht := get_cvm_info_truthy appName input parsed r h
    simp [mainProc, h, ht]
  · intro h
    simp [mainProc, h]

/-- C7 witness: a concrete match prints its one-line JSON and exits 0. -/
theorem C7_witness :
    mainProc ["get_cvm_info.py", "a"] "payload"
        (ParseResult.success (PyVal.list
          [PyVal.dict [("name", PyVal.str "a"), ("id", PyVal.str "i1")]])) =
      ⟨0, some "\x7b\"id\": \"i1\", \"app_id\": null, \"dashboard_url\": null\x7d",
        Option.none⟩ :=
  (C7_exit_behavior "get_cvm_info.py" "a" "payload" [] _).1
    (PyVal.dict [("id", PyVal.str "i1"), ("app_id", PyVal.none),
      ("dashboard_url", PyVal.none)])
    (by decide)

/-- C8: with no name argument, the process prints a usage message to the
error stream and exits 1, and its outcome does not depend on the input
payload or its parse at all. -/
theorem C8_usage_no_arg (argv : List String) (input input2 : String)
    (parsed parsed2 : ParseResult) (h : argv.length < 2) :
    mainProc argv input parsed =
      ⟨1, Option.none, some "Usage: get_cvm_info.py <app_name>"⟩ ∧
    mainProc argv input parsed = mainProc argv input2 parsed2 := by
  match argv with
  | [] => exact ⟨rfl, rfl⟩
  | [a0] => exact ⟨rfl, rfl⟩
  | a0 :: a1 :: rest => simp at h; omega

/-- C8 witness: invoking with only the program name prints usage to the
error stream and exits 1, for an arbitrary concrete stdin. -/
theorem C8_witness :
    mainProc ["get_cvm_info.py"] "whatever" ParseResult.failure =
      ⟨1, Option.none, some "Usage: get_cvm_info.py <app_name>"⟩ :=
  (C8_usage_no_arg ["get_cvm_info.py"] "whatever" "other"
    ParseResult.failure (ParseResult.success (PyVal.list [])) (by decide)).1

/-- C9: a non-dict element reached by the scan (every earlier element
completed without matching) raises, and the swallowed error makes the
whole lookup signal absence — even when a later element would match. -/
theorem C9_nondict_element_aborts (appName input : String) (pre : List PyVal)
    (bad : PyVal) (post : List PyVal)
    (hnd : ∀ fs, bad ≠ PyVal.dict fs)
    (hpre : scanItems appName pre = .ok Option.none) :
    scanItems appName (pre ++ bad :: post) = .error () ∧
    get_cvm_info appName input
        (ParseResult.success (PyVal.list (pre ++ bad :: post))) = Option.none := by
  have hscan : scanItems appName (pre ++ bad :: post) = .error () := by
    rw [scanItems_append_none appName pre (bad :: post) hpre]
    exact scanItems_cons_nondict appName bad post hnd
  refine ⟨hscan, ?_⟩
  cases hi : input.isEmpty <;>
    simp [get_cvm_info, hi, getCvmInfoCore, extractItems, hscan]

/-- C9 witness: a bare string element aborts the lookup although the next
element's name matches the target. -/
theorem C9_witness :
    get_cvm_info "a" "payload"
        (ParseResult.success (PyVal.list
          [PyVal.str "oops", PyVal.dict [("name", PyVal.str "a")]])) =
      Option.none :=
  (C9_nondict_element_aborts "a" "payload" [] (PyVal.str "oops")
    [PyVal.dict [("name", PyVal.str "a")]]
    (fun _ hh => PyVal.noConfusion hh) (by decide)).2

/-- C10: a lookup that returns the all-null Result is still a success: the
process prints `\x7b"id": null, "app_id": null, "dashboard_url": null\x7d`
and exits 0 (never conflated with absence); and a matched item carrying
none of the projected fields produces exactly that Result. -/
theorem C10_all_null_success (a0 appName input : String) (args : List String)
    (parsed : ParseResult)
    (h : get_cvm_info appName input parsed = some allNullResult) :
    mainProc (a0 :: appName :: args) input parsed =
      ⟨0, some "\x7b\"id\": null, \"app_id\": null, \"dashboard_url\": null\x7d",
        Option.none⟩ ∧
    get_cvm_info "a" "x"
        (ParseResult.success (PyVal.list [PyVal.dict [("name", PyVal.str "a")]])) =
      some allNullResult := by
  refine ⟨?_, by decide⟩
  have ht : allNullResult.truthy = true := rfl
  simp [mainProc, h, ht]
  decide

/-- C10 witness: the fieldless matched item makes the process print the
all-null JSON object and exit 0. -/
theorem C10_witness :
    mainProc ["get_cvm_info.py", "a"] "x"
        (ParseResult.success (PyVal.list [PyVal.dict [("name", PyVal.str "a")]])) =
      ⟨0, some "\x7b\"id\": null, \"app_id\": null, \"dashboard_url\": null\x7d",
        Option.none⟩ :=
  (C10_all_null_success "get_cvm_info.py" "a" "x" [] _ (by decide)).1

end CvmInfo
